import Mathlib

/-!
Verification of the `devvit_logs` tool (`src/tools/logs.ts`).

The tool validates parameters, builds an argument vector for the external
`devvit logs` CLI command, spawns a child process, accumulates its stdout and
stderr, enforces a 2000 ms timeout, and produces a single result envelope.

We embed:
* the invocation parameter record (after zod schema defaulting),
* the push-style argument-vector construction of the handler,
* the workspace-root precondition check,
* the output truncation function, and
* the event-driven part of the handler (data / error / timeout / close events
  racing over a resolve-once promise) as an explicit step function on a
  process state.
-/

/-! ## Data model -/

/-- One item of the result content list: `{type: "text", text: string}`. -/
structure ContentItem where
  type : String
  text : String
deriving DecidableEq, Repr

/-- The result envelope `{ content, isError }` returned by the handler. -/
structure Envelope where
  content : List ContentItem
  isError : Bool
deriving DecidableEq, Repr

/-- Invocation parameters as seen by the handler, after the zod schema has
applied defaults: `connect`/`json` default to `false`, `verbose` defaults to
`true`; the optional strings stay optional. -/
structure Params where
  subreddit : String
  app : Option String
  config : Option String
  connect : Bool
  dateformat : Option String
  json : Bool
  since : Option String
  verbose : Bool
deriving DecidableEq, Repr

/-- Raw invocation parameters before schema defaulting: every optional field
may be absent. -/
structure RawParams where
  subreddit : String
  app : Option String
  config : Option String
  connect : Option Bool
  dateformat : Option String
  json : Option Bool
  since : Option String
  verbose : Option Bool
deriving DecidableEq, Repr

/-- The zod schema defaults: `connect := false`, `json := false`,
`verbose := true` when not supplied (lines 20, 27, 32 of `logs.ts`). -/
def applyDefaults (r : RawParams) : Params :=
  { subreddit := r.subreddit
    app := r.app
    config := r.config
    connect := r.connect.getD false
    dateformat := r.dateformat
    json := r.json.getD false
    since := r.since
    verbose := r.verbose.getD true }

/-- JavaScript truthiness of an optional string: `undefined` and the empty
string are falsy, every other string is truthy. -/
def strTruthy : Option String → Bool
  | none => false
  | some s => !s.isEmpty

/-! ## Argument vector construction (`logs.ts` lines 37-60)

Translated statement by statement from the source: start with
`['logs', subreddit]` and push each positional argument or flag under its
truthiness test, in source order. -/

/-- `if (v) args.push(...toks(v))` for an optional string value `v`: the push
happens only when the value is present and truthy (non-empty). -/
def pushOptStr (args : List String) (v : Option String) (toks : String → List String) :
    List String :=
  match v with
  | none => args
  | some s => if s.isEmpty then args else args ++ toks s

/-- `if (b) args.push(...toks)` for a boolean value `b`. -/
def pushBool (args : List String) (b : Bool) (toks : List String) : List String :=
  if b then args ++ toks else args

/-- The argument vector the handler builds before spawning, mirroring the
sequence of `args.push` statements of the source (lines 37, 52, 55-60). -/
def buildArgs (p : Params) : List String :=
  let args := ["logs", p.subreddit]
  let args := pushOptStr args p.app fun a => [a]
  let args := pushOptStr args p.config fun c => ["--config", c]
  let args := pushBool args p.connect ["--connect"]
  let args := pushOptStr args p.dateformat fun d => ["--dateformat", d]
  let args := pushBool args p.json ["--json"]
  let args := pushOptStr args p.since fun s => ["--since", s]
  let args := pushBool args p.verbose ["--verbose"]
  args

/-! Spec-side description of the argument vector (spec §4.1, steps 1-4): the
vector is the concatenation of a fixed prefix, an optional positional
argument, and six flag segments in a fixed relative order. -/

/-- An optional positional argument: one token when present (and truthy). -/
def positionalOpt : Option String → List String
  | none => []
  | some s => if s.isEmpty then [] else [s]

/-- A string-valued flag: the flag token followed by exactly one value token,
emitted only when the value is present (and truthy). -/
def strFlag (flag : String) : Option String → List String
  | none => []
  | some s => if s.isEmpty then [] else [flag, s]

/-- A boolean flag: a lone token, emitted only when the parameter is true. -/
def boolFlag (flag : String) (b : Bool) : List String :=
  if b then [flag] else []

/-- The spec's fixed-order decomposition of the argument vector. -/
def specArgs (p : Params) : List String :=
  ["logs", p.subreddit]
    ++ positionalOpt p.app
    ++ strFlag "--config" p.config
    ++ boolFlag "--connect" p.connect
    ++ strFlag "--dateformat" p.dateformat
    ++ boolFlag "--json" p.json
    ++ strFlag "--since" p.since
    ++ boolFlag "--verbose" p.verbose

/-! ## Precondition check (`logs.ts` lines 38-52) -/

/-- What the handler does before any process event: either reject with an
error envelope or spawn the command with an argument vector and working
directory. -/
inductive HandlerStart where
  | reject (envl : Envelope)
  | spawned (cmd : String) (args : List String) (cwd : Option String)
deriving DecidableEq, Repr

/-- The synchronous head of the handler: resolve the workspace root, reject
when neither a truthy root nor a truthy `app` is available
(`if (!repoRoot && !params.app)`), otherwise spawn `devvit` with the built
argument vector and the root as working directory. -/
def handlerStart (repoRoot : Option String) (p : Params) : HandlerStart :=
  if !strTruthy repoRoot && !strTruthy p.app then
    .reject
      { content := [{ type := "text",
                      text := "App name is required when running outside of a Devvit workspace" }]
        isError := true }
  else
    .spawned "devvit" (buildArgs p) repoRoot

/-! ## Output truncation (`logs.ts` lines 111-113) -/

/-- The truncation cap (`MAX_LENGTH = 2_000`). -/
def MAX_LENGTH : Nat := 2000

/-- Models `str.slice(-n)` for `n ≤ str.length`: the last `n` characters. -/
def sliceLast (s : String) (n : Nat) : String :=
  ⟨s.data.drop (s.data.length - n)⟩

/-- `const truncate = (str) => str.length > MAX_LENGTH ? `…${str.slice(-MAX_LENGTH)}` : str`. -/
def truncate (str : String) : String :=
  if str.length > MAX_LENGTH then "…" ++ sliceLast str MAX_LENGTH else str

/-- Models the JavaScript `||` fallback between strings: the empty string is
falsy, so `a || b` is `b` when `a` is empty and `a` otherwise. -/
def jsOr (a b : String) : String :=
  if a.isEmpty then b else a

/-! ## Event-driven handler body (`logs.ts` lines 64-139)

The promise executor registers handlers for stdout/stderr data, the `error`
event, a 2000 ms timeout, and the `close` event. We model the state of one
invocation (the settled value of the promise, whether the timer is still
pending, the signals sent to the child, and the two accumulation buffers) and
each event as one step. `resolve` on an already settled promise is a no-op,
which is the resolve-once semantics of JavaScript promises. -/

/-- The timeout before the child is signalled (`KILL_TIMEOUT_MS = 2_000`). -/
def KILL_TIMEOUT_MS : Nat := 2000

/-- State of one invocation's promise executor. -/
structure ProcState where
  /-- The value the promise has settled to, if any (resolve-once). -/
  resolved : Option Envelope
  /-- Whether the kill timeout is still pending (set on spawn, cleared by
  `clearTimeout` on close, consumed when it fires). -/
  timeoutActive : Bool
  /-- Signals sent to the child process, in order. -/
  killSignals : List String
  /-- Accumulated stdout text. -/
  stdoutData : String
  /-- Accumulated stderr text. -/
  stderrData : String
deriving DecidableEq, Repr

/-- The events the executor reacts to. -/
inductive Event where
  | dataOut (chunk : String)
  | dataErr (chunk : String)
  | errorEvent (msg : String)
  | timeoutFire
  | closeEvent (code : Option Int)
deriving DecidableEq, Repr

/-- One event handled as in the source: data events append to the buffers;
`error` resolves with the spawn-failure envelope; the timeout fires only while
pending and sends `SIGINT` without resolving; `close` clears the timeout and
resolves by exit code, with the success/failure texts built from the buffers
exactly as in lines 115-137. -/
def step (st : ProcState) : Event → ProcState
  | .dataOut chunk => { st with stdoutData := st.stdoutData ++ chunk }
  | .dataErr chunk => { st with stderrData := st.stderrData ++ chunk }
  | .errorEvent msg =>
    match st.resolved with
    | some _ => st
    | none =>
      { st with resolved := some {
          content := [{ type := "text",
                        text := "Failed to execute devvit logs: " ++ msg }],
          isError := true } }
  | .timeoutFire =>
    if st.timeoutActive then
      { st with timeoutActive := false, killSignals := st.killSignals ++ ["SIGINT"] }
    else st
  | .closeEvent code =>
    let st1 := { st with timeoutActive := false }
    match st1.resolved with
    | some _ => st1
    | none =>
      if code = some 0 then
        { st1 with resolved := some {
            content := [{ type := "text",
                          text := jsOr (truncate st1.stdoutData) "No log output returned." }],
            isError := false } }
      else
        { st1 with resolved := some {
            content := [{ type := "text",
                          text := truncate (jsOr st1.stderrData (jsOr st1.stdoutData "Unknown error")) }],
            isError := true } }

/-- The executor's state right after `spawn`: nothing resolved, the timeout
pending, no signal sent, both buffers empty. -/
def initState : ProcState :=
  { resolved := none
    timeoutActive := true
    killSignals := []
    stdoutData := ""
    stderrData := "" }

/-- Handling a sequence of events in order. -/
def run (st : ProcState) (events : List Event) : ProcState :=
  events.foldl step st

/-- Whether an event is a pure data-accumulation event. -/
def isDataEvent : Event → Bool
  | .dataOut _ => true
  | .dataErr _ => true
  | _ => false

/-- The stdout text carried by a list of events, in arrival order. -/
def outText : List Event → String
  | [] => ""
  | Event.dataOut c :: es => c ++ outText es
  | _ :: es => outText es

/-- The stderr text carried by a list of events, in arrival order. -/
def errText : List Event → String
  | [] => ""
  | Event.dataErr c :: es => c ++ errText es
  | _ :: es => errText es

/-! ## Helper lemmas -/

/-- Pushing an optional positional argument appends its segment. -/
theorem pushOptStr_positional (args : List String) (v : Option String) :
    pushOptStr args v (fun a => [a]) = args ++ positionalOpt v := by
  cases v with
  | none => simp [pushOptStr, positionalOpt]
  | some s =>
    by_cases h : s.isEmpty <;> simp [pushOptStr, positionalOpt, h]

/-- Pushing a string-valued flag appends its segment. -/
theorem pushOptStr_strFlag (args : List String) (flag : String) (v : Option String) :
    pushOptStr args v (fun s => [flag, s]) = args ++ strFlag flag v := by
  cases v with
  | none => simp [pushOptStr, strFlag]
  | some s =>
    by_cases h : s.isEmpty <;> simp [pushOptStr, strFlag, h]

/-- Pushing a boolean flag appends its segment. -/
theorem pushBool_boolFlag (args : List String) (flag : String) (b : Bool) :
    pushBool args b [flag] = args ++ boolFlag flag b := by
  cases b <;> simp [pushBool, boolFlag]

/-- The push-style construction of the source builds exactly the spec's
fixed-order concatenation of segments. -/
theorem buildArgs_eq_specArgs (p : Params) : buildArgs p = specArgs p := by
  simp only [buildArgs, pushOptStr_positional, pushOptStr_strFlag, pushBool_boolFlag,
    specArgs, List.append_assoc]

/-- A purely data-carrying event trace only accumulates the buffers: the
settled value, the timer and the signal list are untouched, and the buffers
grow by exactly the carried text. -/
theorem run_data_events (es : List Event) (st : ProcState)
    (h : ∀ e ∈ es, isDataEvent e = true) :
    run st es =
      { st with stdoutData := st.stdoutData ++ outText es,
                stderrData := st.stderrData ++ errText es } := by
  induction es generalizing st with
  | nil => simp [run, outText, errText]
  | cons e es ih =>
    have hes : ∀ e ∈ es, isDataEvent e = true := fun e h2 => h e (List.mem_cons_of_mem _ h2)
    cases e with
    | dataOut c =>
      have hrec := ih ({ st with stdoutData := st.stdoutData ++ c }) hes
      simp only [run, List.foldl_cons, step] at hrec ⊢
      rw [hrec]
      simp [outText, errText, String.append_assoc]
    | dataErr c =>
      have hrec := ih ({ st with stderrData := st.stderrData ++ c }) hes
      simp only [run, List.foldl_cons, step] at hrec ⊢
      rw [hrec]
      simp [outText, errText, String.append_assoc]
    | errorEvent m =>
      have := h (Event.errorEvent m) (List.mem_cons_self _ _)
      simp [isDataEvent] at this
    | timeoutFire =>
      have := h Event.timeoutFire (List.mem_cons_self _ _)
      simp [isDataEvent] at this
    | closeEvent c =>
      have := h (Event.closeEvent c) (List.mem_cons_self _ _)
      simp [isDataEvent] at this

/-- Resolve-once: a settled promise stays settled at the same value through
any further events. -/
theorem run_resolved_frozen (st : ProcState) (envl : Envelope)
    (h : st.resolved = some envl) (es : List Event) :
    (run st es).resolved = some envl := by
  induction es generalizing st with
  | nil => simpa [run]
  | cons e es ih =>
    have hstep : (step st e).resolved = some envl := by
      cases e with
      | dataOut c => simp [step, h]
      | dataErr c => simp [step, h]
      | errorEvent m => simp [step, h]
      | timeoutFire =>
        simp only [step]
        split <;> simp [h]
      | closeEvent c => simp [step, h]
    simpa [run] using ih (step st e) hstep

/-- The character list underlying a constructed string. -/
theorem data_of_mk (l : List Char) : (String.mk l).data = l := rfl

/-! ## Claim theorems -/

/-- C1: for every parameter set with `subreddit` set and either `app` truthy
or a resolvable workspace root, the handler spawns `devvit` with the built
argument vector, which begins with the literal token `"logs"` followed by the
subreddit value; `app` (when present) is the third element; and the vector
decomposes as the fixed-order concatenation `--config`, `--connect`,
`--dateformat`, `--json`, `--since`, `--verbose` of flag segments, so the
flags always appear in that relative order. -/
theorem c1_arg_vector_prefix_app_and_flag_order (repoRoot : Option String) (p : Params)
    (h : strTruthy p.app = true ∨ strTruthy repoRoot = true) :
    handlerStart repoRoot p = HandlerStart.spawned "devvit" (buildArgs p) repoRoot ∧
    (buildArgs p).take 2 = ["logs", p.subreddit] ∧
    (∀ a, p.app = some a → a.isEmpty = false → (buildArgs p)[2]? = some a) ∧
    buildArgs p =
      ["logs", p.subreddit]
        ++ positionalOpt p.app
        ++ strFlag "--config" p.config
        ++ boolFlag "--connect" p.connect
        ++ strFlag "--dateformat" p.dateformat
        ++ boolFlag "--json" p.json
        ++ strFlag "--since" p.since
        ++ boolFlag "--verbose" p.verbose := by
  refine ⟨?_, ?_, ?_, ?_⟩
  · rcases h with h | h <;> simp [handlerStart, h]
  · rw [buildArgs_eq_specArgs]
    simp [specArgs]
  · intro a ha hne
    rw [buildArgs_eq_specArgs]
    simp [specArgs, positionalOpt, ha, hne]
  · rw [buildArgs_eq_specArgs]
    rfl

/-- A concrete parameter set (the second example of the tool description). -/
def c1p : Params :=
  { subreddit := "mySubreddit"
    app := some "my-app"
    config := none
    connect := false
    dateformat := none
    json := true
    since := some "15m"
    verbose := true }

/-- Closed instance of C1 at a concrete parameter set. -/
theorem c1_witness :
    handlerStart (some "/ws") c1p = HandlerStart.spawned "devvit" (buildArgs c1p) (some "/ws") ∧
    (buildArgs c1p).take 2 = ["logs", "mySubreddit"] ∧
    (buildArgs c1p)[2]? = some "my-app" := by
  have h := c1_arg_vector_prefix_app_and_flag_order (some "/ws") c1p (Or.inl (by decide))
  exact ⟨h.1, h.2.1, h.2.2.1 "my-app" rfl (by decide)⟩

/-- C2: after schema defaulting, the argument vector decomposes so that each
boolean flag (`--connect`, `--json`, `--verbose`) appears as a lone token with
no following value and only when its parameter is true — `verbose` defaulting
to true, so `--verbose` is emitted unless `verbose` is explicitly false —
while each string flag (`--config`, `--dateformat`, `--since`) is always
followed by exactly one value token. -/
theorem c2_flag_arity_and_defaults (r : RawParams) :
    buildArgs (applyDefaults r) =
      ["logs", r.subreddit]
        ++ positionalOpt r.app
        ++ strFlag "--config" r.config
        ++ boolFlag "--connect" (r.connect.getD false)
        ++ strFlag "--dateformat" r.dateformat
        ++ boolFlag "--json" (r.json.getD false)
        ++ strFlag "--since" r.since
        ++ boolFlag "--verbose" (r.verbose.getD true) ∧
    (∀ flag, boolFlag flag true = [flag] ∧ boolFlag flag false = []) ∧
    (∀ flag v, v.isEmpty = false → strFlag flag (some v) = [flag, v]) ∧
    (∀ flag, strFlag flag none = []) := by
  refine ⟨?_, ?_, ?_, ?_⟩
  · rw [buildArgs_eq_specArgs]
    simp [specArgs, applyDefaults]
  · intro flag
    exact ⟨rfl, rfl⟩
  · intro flag v hv
    simp [strFlag, hv]
  · intro flag
    rfl

/-- A concrete raw parameter set leaving `verbose` unset. -/
def c2r : RawParams :=
  { subreddit := "mySubreddit"
    app := none
    config := some "devvit.yaml"
    connect := some true
    dateformat := none
    json := none
    since := none
    verbose := none }

/-- Closed instance of C2: with `verbose` unset it is emitted, `--config`
carries exactly one value, `--json` is absent. -/
theorem c2_witness :
    buildArgs (applyDefaults c2r) =
      ["logs", "mySubreddit", "--config", "devvit.yaml", "--connect", "--verbose"] ∧
    strFlag "--config" (some "devvit.yaml") = ["--config", "devvit.yaml"] := by
  have h := c2_flag_arity_and_defaults c2r
  exact ⟨h.1.trans (by decide), h.2.2.1 "--config" "devvit.yaml" (by decide)⟩

/-- C3: when no workspace root resolves and no app was provided, the handler
rejects with an `isError: true` envelope whose single text item says an app
name is required outside a Devvit workspace, and nothing is spawned. -/
theorem c3_reject_without_workspace_and_app (repoRoot : Option String) (p : Params)
    (hroot : strTruthy repoRoot = false) (happ : strTruthy p.app = false) :
    handlerStart repoRoot p = HandlerStart.reject {
      content := [{ type := "text",
                    text := "App name is required when running outside of a Devvit workspace" }],
      isError := true } ∧
    ∀ cmd args cwd, handlerStart repoRoot p ≠ HandlerStart.spawned cmd args cwd := by
  constructor
  · simp [handlerStart, hroot, happ]
  · intro cmd args cwd
    simp [handlerStart, hroot, happ]

/-- The bare parameter set `{subreddit: "mySubreddit"}` after defaulting. -/
def c3p : Params :=
  { subreddit := "mySubreddit"
    app := none
    config := none
    connect := false
    dateformat := none
    json := false
    since := none
    verbose := true }

/-- Closed instance of C3 at `{subreddit: "mySubreddit"}` with no root. -/
theorem c3_witness :
    handlerStart none c3p = HandlerStart.reject {
      content := [{ type := "text",
                    text := "App name is required when running outside of a Devvit workspace" }],
      isError := true } ∧
    handlerStart none c3p ≠ HandlerStart.spawned "devvit" (buildArgs c3p) none := by
  have h := c3_reject_without_workspace_and_app none c3p rfl rfl
  exact ⟨h.1, h.2 "devvit" (buildArgs c3p) none⟩

/-- C10: an optional string parameter equal to the empty string behaves
exactly as an absent one: an empty `app` appends no positional argument and
still triggers the app-name-required rejection when no root resolves; empty
`config`, `dateformat` or `since` emit no flag. -/
theorem c10_empty_string_as_absent (repoRoot : Option String) (p : Params) :
    buildArgs { p with app := some "" } = buildArgs { p with app := none } ∧
    buildArgs { p with config := some "" } = buildArgs { p with config := none } ∧
    buildArgs { p with dateformat := some "" } = buildArgs { p with dateformat := none } ∧
    buildArgs { p with since := some "" } = buildArgs { p with since := none } ∧
    handlerStart repoRoot { p with app := some "" } =
      handlerStart repoRoot { p with app := none } := by
  have hemp : "".isEmpty = true := rfl
  refine ⟨?_, ?_, ?_, ?_, ?_⟩
  · rw [buildArgs_eq_specArgs, buildArgs_eq_specArgs]
    simp [specArgs, positionalOpt, hemp]
  · rw [buildArgs_eq_specArgs, buildArgs_eq_specArgs]
    simp [specArgs, strFlag, hemp]
  · rw [buildArgs_eq_specArgs, buildArgs_eq_specArgs]
    simp [specArgs, strFlag, hemp]
  · rw [buildArgs_eq_specArgs, buildArgs_eq_specArgs]
    simp [specArgs, strFlag, hemp]
  · have hb : buildArgs { p with app := some "" } = buildArgs { p with app := none } := by
      rw [buildArgs_eq_specArgs, buildArgs_eq_specArgs]
      simp [specArgs, positionalOpt, hemp]
    simp [handlerStart, strTruthy, hb, hemp]

/-- C4: the truncation cap is 2000; a string of at most 2000 characters is
returned unchanged, and a longer one becomes exactly a single ellipsis
character prepended to its last 2000 characters. -/
theorem c4_truncate_cap (s : String) :
    MAX_LENGTH = 2000 ∧
    (s.length ≤ 2000 → truncate s = s) ∧
    (s.length > 2000 →
      (truncate s).data = '…' :: s.data.drop (s.length - 2000) ∧
      (s.data.drop (s.length - 2000)).length = 2000) := by
  have hlen : s.length = s.data.length := rfl
  refine ⟨rfl, ?_, ?_⟩
  · intro h
    have hng : ¬ (s.length > MAX_LENGTH) := by
      simp only [MAX_LENGTH]
      omega
    unfold truncate
    rw [if_neg hng]
  · intro h
    have hgt : s.length > MAX_LENGTH := h
    constructor
    · have ht : truncate s = "…" ++ sliceLast s MAX_LENGTH := by
        unfold truncate
        rw [if_pos hgt]
      have hd : "…".data = ['…'] := by decide
      rw [ht, String.data_append, hd]
      unfold sliceLast
      rw [data_of_mk, List.singleton_append,
        show s.data.length - MAX_LENGTH = s.length - 2000 from rfl]
    · rw [List.length_drop, ← hlen]
      omega

/-- A 2001-character string, for the over-cap branch of C4. -/
def c4s : String := ⟨List.replicate 2001 'x'⟩

/-- Closed instance of C4 on both sides of the cap. -/
theorem c4_witness :
    truncate "hello" = "hello" ∧
    (truncate c4s).data = '…' :: c4s.data.drop (c4s.length - 2000) ∧
    (c4s.data.drop (c4s.length - 2000)).length = 2000 := by
  refine ⟨(c4_truncate_cap "hello").2.1 (by decide), ?_⟩
  have h : c4s.length > 2000 := by
    have h1 : c4s.length = 2001 := by
      show c4s.data.length = 2001
      simp only [c4s, data_of_mk, List.length_replicate]
    omega
  exact (c4_truncate_cap c4s).2.2 h

/-- C5: a process close with exit code 0, after any sequence of data events,
settles the promise with `isError: false` and a single text item holding the
truncated accumulated stdout, or the fixed placeholder when that truncated
stdout is empty. -/
theorem c5_close_zero_success_envelope (es : List Event)
    (h : ∀ e ∈ es, isDataEvent e = true) :
    (run initState (es ++ [Event.closeEvent (some 0)])).resolved =
      some { content := [{ type := "text",
                           text := jsOr (truncate (outText es)) "No log output returned." }],
             isError := false } := by
  have hv := run_data_events es initState h
  simp only [run] at hv ⊢
  rw [List.foldl_append, hv]
  simp only [List.foldl_cons, List.foldl_nil, step]
  simp [initState]

/-- Closed instance of C5: stdout `"hello"`, exit code 0. -/
theorem c5_witness :
    (run initState [Event.dataOut "hello", Event.closeEvent (some 0)]).resolved =
      some { content := [{ type := "text", text := "hello" }], isError := false } := by
  have h := c5_close_zero_success_envelope [Event.dataOut "hello"] (by decide)
  rw [show ([Event.dataOut "hello"] ++ [Event.closeEvent (some 0)])
        = [Event.dataOut "hello", Event.closeEvent (some 0)] from rfl] at h
  rw [h]
  decide

/-- C6: a process close with any exit code other than 0 (including null from
signal termination), after any sequence of data events, settles the promise
with `isError: true` and a single text item holding the truncation of the
stderr buffer if non-empty, else the stdout buffer if non-empty, else the
literal unknown-error placeholder. -/
theorem c6_close_nonzero_failure_envelope (es : List Event) (code : Option Int)
    (h : ∀ e ∈ es, isDataEvent e = true) (hc : code ≠ some 0) :
    (run initState (es ++ [Event.closeEvent code])).resolved =
      some { content := [{ type := "text",
                           text := truncate (jsOr (errText es)
                             (jsOr (outText es) "Unknown error")) }],
             isError := true } := by
  have hv := run_data_events es initState h
  simp only [run] at hv ⊢
  rw [List.foldl_append, hv]
  simp only [List.foldl_cons, List.foldl_nil, step]
  simp [initState, hc]

/-- Closed instance of C6: stderr `"boom"`, exit code 1. -/
theorem c6_witness :
    (run initState [Event.dataErr "boom", Event.closeEvent (some 1)]).resolved =
      some { content := [{ type := "text", text := "boom" }], isError := true } := by
  have h := c6_close_nonzero_failure_envelope [Event.dataErr "boom"] (some 1)
    (by decide) (by decide)
  rw [show ([Event.dataErr "boom"] ++ [Event.closeEvent (some 1)])
        = [Event.dataErr "boom", Event.closeEvent (some 1)] from rfl] at h
  rw [h]
  decide

/-- C7: the timeout constant is exactly 2000 ms and the timer is pending from
process start; when it fires while pending it sends exactly one `SIGINT` to
the child and settles nothing; the close event always cancels the pending
timeout, and it is the close event that produces the envelope. -/
theorem c7_timeout_signals_without_resolving :
    KILL_TIMEOUT_MS = 2000 ∧
    initState.timeoutActive = true ∧
    (∀ st : ProcState, st.timeoutActive = true →
      (step st Event.timeoutFire).killSignals = st.killSignals ++ ["SIGINT"] ∧
      (step st Event.timeoutFire).resolved = st.resolved) ∧
    (∀ (st : ProcState) (code : Option Int),
      (step st (Event.closeEvent code)).timeoutActive = false) ∧
    (∀ (st : ProcState) (code : Option Int), st.resolved = none →
      ∃ envl, (step st (Event.closeEvent code)).resolved = some envl) := by
  refine ⟨rfl, rfl, ?_, ?_, ?_⟩
  · intro st h
    constructor <;> simp [step, h]
  · intro st code
    cases hres : st.resolved with
    | none =>
      simp only [step, hres]
      split <;> rfl
    | some v => simp [step, hres]
  · intro st code h
    by_cases hc : code = some 0 <;> simp [step, h, hc]

/-- Closed instance of C7: the timeout fires on the fresh state, sends one
`SIGINT` and settles nothing; a later close cancels the timer. -/
theorem c7_witness :
    (step initState Event.timeoutFire).killSignals = ["SIGINT"] ∧
    (step initState Event.timeoutFire).resolved = none ∧
    (step initState (Event.closeEvent none)).timeoutActive = false := by
  have h := c7_timeout_signals_without_resolving
  have h1 := h.2.2.1 initState h.2.1
  refine ⟨?_, ?_, h.2.2.2.1 initState none⟩
  · rw [h1.1]
    rfl
  · rw [h1.2]
    rfl

/-- C8: a spawn-failure (`error`) event on an unsettled invocation settles it
immediately with an `isError: true` envelope whose single text item contains
the failure's message, and no later event — timeout firing or close included —
changes the settled envelope. -/
theorem c8_spawn_error_resolves_immediately (st : ProcState) (msg : String)
    (h : st.resolved = none) :
    (step st (Event.errorEvent msg)).resolved =
      some { content := [{ type := "text",
                           text := "Failed to execute devvit logs: " ++ msg }],
             isError := true } ∧
    (∃ pre, "Failed to execute devvit logs: " ++ msg = pre ++ msg) ∧
    (∀ e, (step (step st (Event.errorEvent msg)) e).resolved =
      (step st (Event.errorEvent msg)).resolved) := by
  have h1 : (step st (Event.errorEvent msg)).resolved =
      some { content := [{ type := "text",
                           text := "Failed to execute devvit logs: " ++ msg }],
             isError := true } := by
    simp [step, h]
  refine ⟨h1, ⟨"Failed to execute devvit logs: ", rfl⟩, ?_⟩
  intro e
  have h2 := run_resolved_frozen (step st (Event.errorEvent msg)) _ h1 [e]
  simp only [run, List.foldl_cons, List.foldl_nil] at h2
  rw [h2, h1]

/-- Closed instance of C8 at a typical spawn failure message. -/
theorem c8_witness :
    (step initState (Event.errorEvent "spawn devvit ENOENT")).resolved =
      some { content := [{ type := "text",
                           text := "Failed to execute devvit logs: " ++ "spawn devvit ENOENT" }],
             isError := true } :=
  (c8_spawn_error_resolves_immediately initState "spawn devvit ENOENT" rfl).1

/-- C9: one envelope per invocation: a settled state stays settled at the same
envelope through any further events, the timeout firing never settles an
unsettled state, and after a spawn error every later trace — a close event
included — leaves the spawn-error envelope in place. -/
theorem c9_single_resolution :
    (∀ (st : ProcState) (envl : Envelope) (es : List Event),
      st.resolved = some envl → (run st es).resolved = some envl) ∧
    (∀ st : ProcState, st.resolved = none →
      (step st Event.timeoutFire).resolved = none) ∧
    (∀ (st : ProcState) (msg : String) (es : List Event), st.resolved = none →
      (run (step st (Event.errorEvent msg)) es).resolved =
        some { content := [{ type := "text",
                             text := "Failed to execute devvit logs: " ++ msg }],
               isError := true }) := by
  refine ⟨?_, ?_, ?_⟩
  · intro st envl es h
    exact run_resolved_frozen st envl h es
  · intro st h
    simp [step, h]
    split <;> simp [h]
  · intro st msg es h
    have h1 : (step st (Event.errorEvent msg)).resolved =
        some { content := [{ type := "text",
                             text := "Failed to execute devvit logs: " ++ msg }],
               isError := true } := by
      simp [step, h]
    exact run_resolved_frozen _ _ h1 es

/-- Closed instance of C9: an error event followed by a timeout firing and a
close event still yields exactly the spawn-error envelope. -/
theorem c9_witness :
    (run (step initState (Event.errorEvent "boom"))
        [Event.timeoutFire, Event.closeEvent (some 0)]).resolved =
      some { content := [{ type := "text",
                           text := "Failed to execute devvit logs: " ++ "boom" }],
             isError := true } :=
  c9_single_resolution.2.2 initState "boom" [Event.timeoutFire, Event.closeEvent (some 0)] rfl
